import Mathlib

/-!
Verification of the simple-journal web application's entry-creation and
auto-titling pipeline, its session gate, prompt selection and degraded-mode
creative prompt generation.  Each definition is a shallow embedding of the
corresponding TypeScript route handler or library function; stateful
database operations are modelled by explicit state passing, and the external
text-generation call by an explicit outcome parameter.
-/

set_option maxRecDepth 4096

/-- The three journal entry categories (Prisma enum `EntryType`). -/
inductive EntryType
  | ANGER
  | GRATITUDE
  | CREATIVE
deriving DecidableEq, Repr

/-- `ENTRY_EMOJI` from `lib/journal.ts`: fixed emoji tag per category. -/
def ENTRY_EMOJI : EntryType → String
  | .ANGER => "🤬"
  | .GRATITUDE => "🥰"
  | .CREATIVE => "✍️"

/-- `ENTRY_SLUG_TO_ENUM` from `lib/journal.ts`: lowercase slug lookup. -/
def ENTRY_SLUG_TO_ENUM : String → Option EntryType
  | "anger" => some .ANGER
  | "gratitude" => some .GRATITUDE
  | "creative" => some .CREATIVE
  | _ => none

/-- The `EntryCounter` table: at most one counter row per category. -/
def CounterState := EntryType → Option Nat

/-- The integer value an absent counter row stands for (no row = zero). -/
def counterValue (s : CounterState) (t : EntryType) : Nat :=
  (s t).getD 0

/-- The Prisma `entryCounter.upsert` in `nextEntryTitle`: create the row at 1
if absent, otherwise atomically increment; returns the resulting counter
value together with the new table state. -/
def upsertCounter (s : CounterState) (t : EntryType) : Nat × CounterState :=
  match s t with
  | none => (1, fun u => if u = t then some 1 else s u)
  | some c => (c + 1, fun u => if u = t then some (c + 1) else s u)

/-- JavaScript `String.prototype.padStart(3, "0")`. -/
def padStart3 (s : String) : String :=
  if 3 ≤ s.length then s else String.mk (List.replicate (3 - s.length) '0') ++ s

/-- The title formatting inside `nextEntryTitle`:
`` `${ENTRY_EMOJI[entryType]} ${counter.toString().padStart(3, "0")}` ``. -/
def formatTitle (t : EntryType) (c : Nat) : String :=
  ENTRY_EMOJI t ++ " " ++ padStart3 (Nat.repr c)

/-- `nextEntryTitle` from `lib/journal.ts`: upsert-increment the category's
counter and format the display title from the fresh counter value. -/
def nextEntryTitle (t : EntryType) (s : CounterState) : String × CounterState :=
  match upsertCounter s t with
  | (c, s') => (formatTitle t c, s')

/-- N sequential successful entry creations in one category, observed through
the titles they return (the title is the only part of the created entry that
depends on the counter). -/
def runCreates (t : EntryType) : Nat → CounterState → List String × CounterState
  | 0, s => ([], s)
  | n + 1, s =>
    match nextEntryTitle t s with
    | (title, s') =>
      match runCreates t n s' with
      | (rest, s'') => (title :: rest, s'')

theorem upsertCounter_fst (s : CounterState) (t : EntryType) :
    (upsertCounter s t).1 = counterValue s t + 1 := by
  unfold upsertCounter counterValue
  cases s t <;> simp

theorem upsertCounter_counterValue (s : CounterState) (t : EntryType) :
    counterValue (upsertCounter s t).2 t = counterValue s t + 1 := by
  unfold upsertCounter counterValue
  cases s t <;> simp

/-- C1: for every category and every run of N sequential successful entry
creations, the returned titles are exactly the formatted titles for counter
values k+1, …, k+N in order (k the category's counter value before the run),
those suffix values are pairwise distinct with no gaps, and the counter ends
at k+N — it is non-negative, monotone, and incremented exactly once per
creation. -/
theorem counter_run_titles (t : EntryType) (s : CounterState) (N : Nat) :
    (runCreates t N s).1 =
      (List.range' (counterValue s t + 1) N).map (formatTitle t) ∧
    counterValue (runCreates t N s).2 t = counterValue s t + N ∧
    (List.range' (counterValue s t + 1) N).Nodup := by
  refine ⟨?_, ?_, List.nodup_range' _ _ 1 Nat.one_pos⟩
  · induction N generalizing s with
    | zero => simp [runCreates]
    | succ n ih =>
      have h1 := upsertCounter_fst s t
      have h2 := upsertCounter_counterValue s t
      simp only [runCreates, nextEntryTitle]
      cases hu : upsertCounter s t with
      | mk c s' =>
        rw [hu] at h1 h2
        simp only at h1 h2
        cases hr : runCreates t n s' with
        | mk rest s'' =>
          have := ih s'
          rw [hr] at this
          simp only at this
          simp [List.range'_succ, h1, h2 ▸ this, this, h2]
  · induction N generalizing s with
    | zero => simp [runCreates]
    | succ n ih =>
      have h2 := upsertCounter_counterValue s t
      simp only [runCreates, nextEntryTitle]
      cases hu : upsertCounter s t with
      | mk c s' =>
        rw [hu] at h2
        simp only at h2
        cases hr : runCreates t n s' with
        | mk rest s'' =>
          have := ih s'
          rw [hr] at this
          simp only at this
          simp [this, h2]
          omega

/-! ### Session gate (`/api/auth/set`, `/api/auth/verify`) -/

/-- JavaScript `String.prototype.trim()` on the underlying character list:
strip leading and trailing whitespace. -/
def trimChars (l : List Char) : List Char :=
  ((l.dropWhile Char.isWhitespace).reverse.dropWhile Char.isWhitespace).reverse

/-- JavaScript `String.prototype.trim()`. -/
def jsTrim (s : String) : String := String.mk (trimChars s.data)

/-- The single `User` row of the credential store. -/
structure User where
  id : String
  passcodeHash : Option String
deriving DecidableEq, Repr

/-- Modelled from the spec: the external `argon2` library (a dependency, not
part of src/) computes "a salted one-way hash … of the candidate"; its
constant-time `verify` succeeds exactly when the candidate matches the one
that was hashed.  The hash is modelled as an injective tagging. -/
def argon2hash (p : String) : String := "argon2$" ++ p

/-- Modelled from the spec: `argon2.verify(hash, candidate)`. -/
def argon2verify (h p : String) : Bool := h == argon2hash p

/-- Observable outcome of an auth route: HTTP status, error message,
success flag, resulting user row, and the session cookie's user id. -/
structure AuthResult where
  status : Nat
  error : Option String
  success : Bool
  user : Option User
  sessionUserId : Option String
deriving DecidableEq, Repr

/-- `POST /api/auth/set` from `app/api/auth/set/route.ts`: trim, reject empty
(400), reject length outside [4,128] (400), reject when a hash already exists
(409), otherwise hash and store on the updated-or-created user row and issue
a session. -/
def authSetPOST (body : Option String) (existingUser : Option User)
    (newUserId : String) : AuthResult :=
  let passcode := (body.map jsTrim).getD ""
  if passcode = "" then
    ⟨400, some "Passcode is required.", false, existingUser, none⟩
  else if passcode.length < 4 ∨ 128 < passcode.length then
    ⟨400, some "Passcode must be between 4 and 128 characters.", false,
      existingUser, none⟩
  else
    match existingUser with
    | some u =>
      match u.passcodeHash with
      | some _ =>
        ⟨409, some "Passcode already set. Use /api/auth/verify.", false,
          existingUser, none⟩
      | none =>
        ⟨200, none, true, some ⟨u.id, some (argon2hash passcode)⟩, some u.id⟩
    | none =>
      ⟨200, none, true, some ⟨newUserId, some (argon2hash passcode)⟩,
        some newUserId⟩

/-- `POST /api/auth/verify` from `app/api/auth/verify/route.ts`: trim, reject
empty (400), reject when no user/hash exists (400), compare via the hashing
library's verify (mismatch 401), on success issue a session. -/
def authVerifyPOST (body : Option String) (user : Option User) : AuthResult :=
  let passcode := (body.map jsTrim).getD ""
  if passcode = "" then
    ⟨400, some "Passcode is required.", false, user, none⟩
  else
    match user with
    | none =>
      ⟨400, some "Passcode not configured. Use /api/auth/set first.", false,
        user, none⟩
    | some u =>
      match u.passcodeHash with
      | none =>
        ⟨400, some "Passcode not configured. Use /api/auth/set first.", false,
          user, none⟩
      | some h =>
        if argon2verify h passcode then ⟨200, none, true, user, some u.id⟩
        else ⟨401, some "Invalid passcode.", false, user, none⟩

theorem String.append_cancel_left {s a b : String} (h : s ++ a = s ++ b) :
    a = b := by
  apply String.ext
  have hd := congrArg String.data h
  simp only [String.data_append] at hd
  exact List.append_cancel_left hd

theorem argon2verify_hash (p q : String) :
    argon2verify (argon2hash p) q = true ↔ q = p := by
  unfold argon2verify argon2hash
  constructor
  · intro h
    exact (String.append_cancel_left (eq_of_beq h)).symm
  · intro h
    subst h
    simp

/-- Shape of a successful `set`: the stored row carries the hash of the
trimmed candidate, and the candidate trims to a non-empty string. -/
theorem authSet_success_shape (p : String) (db : Option User) (newId : String)
    (hset : (authSetPOST (some p) db newId).status = 200) :
    jsTrim p ≠ "" ∧
    ∃ uid, (authSetPOST (some p) db newId).user =
      some ⟨uid, some (argon2hash (jsTrim p))⟩ := by
  unfold authSetPOST at *
  simp only [Option.map_some', Option.getD_some] at *
  by_cases h1 : jsTrim p = ""
  · simp [h1] at hset
  · by_cases h2 : (jsTrim p).length < 4 ∨ 128 < (jsTrim p).length
    · simp only [if_neg h1, if_pos h2] at hset
      simp at hset
    · refine ⟨h1, ?_⟩
      simp only [if_neg h1, if_neg h2] at hset ⊢
      cases db with
      | none => exact ⟨newId, rfl⟩
      | some u =>
        cases hu : u.passcodeHash with
        | none => simp only [hu]; exact ⟨u.id, rfl⟩
        | some h => simp [hu] at hset

/-- C4 counterexample: with a hash already stored, the invalid candidate
"ab" (length 2) fails with ValidationError 400 — the validation checks run
before the conflict check — refuting "always fails with a ConflictError
(409) … regardless of whether the new candidate is itself valid". -/
theorem setPasscode_invalid_candidate_counterexample :
    (authSetPOST (some "ab") (some ⟨"user-1", some "stored"⟩) "u2").status
      = 400 ∧ (400 : Nat) ≠ 409 := by
  decide

/-- C4 (amended): when a passcode hash already exists for the user,
`setPasscode` fails with ConflictError (409) for every candidate that passes
validation (trims to a non-empty string of length in [4,128]); an invalid
candidate instead fails with ValidationError (400) before the conflict check
is reached; in either case the stored user row is unchanged and no session
is issued. -/
theorem setPasscode_existing_hash (cand : String) (u : User)
    (hsh newId : String) (hh : u.passcodeHash = some hsh) :
    ((jsTrim cand ≠ "" ∧ 4 ≤ (jsTrim cand).length ∧ (jsTrim cand).length ≤ 128) →
      (authSetPOST (some cand) (some u) newId).status = 409) ∧
    ((jsTrim cand = "" ∨ (jsTrim cand).length < 4 ∨ 128 < (jsTrim cand).length) →
      (authSetPOST (some cand) (some u) newId).status = 400) ∧
    (authSetPOST (some cand) (some u) newId).user = some u ∧
    (authSetPOST (some cand) (some u) newId).sessionUserId = none := by
  unfold authSetPOST
  simp only [Option.map_some', Option.getD_some]
  by_cases h1 : jsTrim cand = ""
  · simp [h1]
  · by_cases h2 : (jsTrim cand).length < 4 ∨ 128 < (jsTrim cand).length
    · simp only [if_neg h1, if_pos h2]
      simp [h1, h2]
      omega
    · simp only [if_neg h1, if_neg h2, hh]
      simp [h1]
      omega

theorem setPasscode_existing_hash_witness :
    ((jsTrim ("12" : String) ≠ "" ∧ 4 ≤ (jsTrim ("12" : String)).length ∧
        (jsTrim ("12" : String)).length ≤ 128) →
      (authSetPOST (some "12") (some ⟨"user-1", some "stored"⟩) "u2").status
        = 409) ∧
    ((jsTrim ("12" : String) = "" ∨ (jsTrim ("12" : String)).length < 4 ∨
        128 < (jsTrim ("12" : String)).length) →
      (authSetPOST (some "12") (some ⟨"user-1", some "stored"⟩) "u2").status
        = 400) ∧
    (authSetPOST (some "12") (some ⟨"user-1", some "stored"⟩) "u2").user
      = some ⟨"user-1", some "stored"⟩ ∧
    AuthResult.sessionUserId
      (authSetPOST (some "12") (some ⟨"user-1", some "stored"⟩) "u2") = none :=
  setPasscode_existing_hash "12" ⟨"user-1", some "stored"⟩ "stored" "u2" rfl

/-- C5 counterexample: setPasscode("1234") succeeds, yet verify(" 1234") —
a candidate different from "1234" — also succeeds, because both routes trim
the candidate before hashing/verifying; this refutes "verifyPasscode(q)
fails with an authentication error for every candidate q different from
p". -/
theorem verify_different_candidate_counterexample :
    (authSetPOST (some "1234") none "u1").status = 200 ∧
    (" 1234" : String) ≠ "1234" ∧
    (authVerifyPOST (some " 1234")
      (authSetPOST (some "1234") none "u1").user).status = 200 := by
  decide

/-- C5 (amended): after a successful setPasscode(p), verifyPasscode(p)
succeeds; and verifyPasscode(q) fails for every q whose trimmed value
differs from p's trimmed value — with an AuthenticationError (401) when q
trims to a non-empty string, and a ValidationError (400) when q trims to
the empty string. -/
theorem verify_after_set (p q : String) (db : Option User) (newId : String)
    (hset : (authSetPOST (some p) db newId).status = 200) :
    (authVerifyPOST (some p) (authSetPOST (some p) db newId).user).status
      = 200 ∧
    (authVerifyPOST (some p) (authSetPOST (some p) db newId).user).success
      = true ∧
    (jsTrim q ≠ jsTrim p → jsTrim q ≠ "" →
      (authVerifyPOST (some q) (authSetPOST (some p) db newId).user).status
        = 401) ∧
    (jsTrim q = "" →
      (authVerifyPOST (some q) (authSetPOST (some p) db newId).user).status
        = 400) := by
  obtain ⟨hne, uid, huser⟩ := authSet_success_shape p db newId hset
  rw [huser]
  unfold authVerifyPOST
  simp only [Option.map_some', Option.getD_some]
  have hv : argon2verify (argon2hash (jsTrim p)) (jsTrim p) = true :=
    (argon2verify_hash (jsTrim p) (jsTrim p)).mpr rfl
  refine ⟨?_, ?_, ?_, ?_⟩
  · simp [if_neg hne, hv]
  · simp [if_neg hne, hv]
  · intro hq hqne
    have hfalse : argon2verify (argon2hash (jsTrim p)) (jsTrim q) = false := by
      cases hb : argon2verify (argon2hash (jsTrim p)) (jsTrim q) with
      | false => rfl
      | true => exact absurd ((argon2verify_hash (jsTrim p) (jsTrim q)).mp hb) hq
    simp [if_neg hqne, hfalse]
  · intro hq
    simp [hq]

theorem verify_after_set_witness :
    (authVerifyPOST (some "1234")
      (authSetPOST (some "1234") none "u1").user).status = 200 ∧
    (authVerifyPOST (some "1234")
      (authSetPOST (some "1234") none "u1").user).success = true ∧
    (jsTrim ("9999" : String) ≠ jsTrim ("1234" : String) →
      jsTrim ("9999" : String) ≠ "" →
      (authVerifyPOST (some "9999")
        (authSetPOST (some "1234") none "u1").user).status = 401) ∧
    (jsTrim ("9999" : String) = "" →
      (authVerifyPOST (some "9999")
        (authSetPOST (some "1234") none "u1").user).status = 400) :=
  verify_after_set "1234" "9999" none "u1" (by decide)

/-! ### Entry store (`/api/entries`, `/api/entries/[id]`) -/

/-- JavaScript `String.prototype.toLowerCase()`. -/
def jsToLower (s : String) : String := String.mk (s.data.map Char.toLower)

/-- A JSON field value as the route handlers discriminate it: a string, an
explicit null, an absent key, or some non-string value. -/
inductive JsonField
  | str (s : String)
  | nullv
  | absent
  | other
deriving DecidableEq, Repr

/-- `typeof v === "string"` narrowing of a JSON field. -/
def JsonField.asMaybeStr : JsonField → Option String
  | .str s => some s
  | _ => none

/-- The request body of `POST /api/entries` (`CreateEntryPayload`); the
prompt-id fields are typed `string | null | undefined`, encoded as
`some (some s)` / `some none` / `none`. -/
structure CreateEntryPayload where
  entryType : Option String
  bodyMarkdown : JsonField
  angerReason : JsonField
  gratitudePromptId : Option (Option String)
  creativePromptId : Option (Option String)
deriving DecidableEq, Repr

/-- JavaScript truthiness of a `string | null | undefined` value: a string is
truthy iff non-empty; null/undefined are falsy. -/
def truthyStr : Option (Option String) → Bool
  | some (some s) => !(s == "")
  | _ => false

/-- The string payload of a `string | null | undefined` value. -/
def idValue : Option (Option String) → Option String
  | some (some s) => some s
  | _ => none

/-- A `JournalEntry` row. -/
structure JournalEntry where
  id : String
  userId : String
  entryType : EntryType
  title : String
  bodyMarkdown : String
  angerReason : Option String
  gratitudePromptId : Option String
  creativePromptId : Option String
  createdAt : Nat
deriving DecidableEq, Repr

/-- Observable outcome of `POST /api/entries`. -/
structure EntriesPostResult where
  status : Nat
  error : Option String
  entry : Option JournalEntry
  counters : CounterState
  db : List JournalEntry

/-- `POST /api/entries` from `app/api/entries/route.ts`: authenticate (401),
resolve the case-insensitive entry-type slug (unknown slug 400), draw the
next title from the counter, normalize the auxiliary fields (the anger
reason is kept trimmed only for ANGER; each prompt reference is kept only
for its own category and only when truthy), and persist the entry. -/
def entriesPOST (userId : Option String) (body : CreateEntryPayload)
    (counters : CounterState) (db : List JournalEntry)
    (newId : String) (now : Nat) : EntriesPostResult :=
  match userId with
  | none => ⟨401, some "Unauthorized", none, counters, db⟩
  | some uid =>
    match (body.entryType.map jsToLower).bind ENTRY_SLUG_TO_ENUM with
    | none =>
      ⟨400, some "entryType must be anger, gratitude, or creative.", none,
        counters, db⟩
    | some t =>
      match nextEntryTitle t counters with
      | (title, counters') =>
        let angerReason :=
          if t = .ANGER then body.angerReason.asMaybeStr.map jsTrim else none
        let bodyMarkdown := body.bodyMarkdown.asMaybeStr.getD ""
        let gratitudePromptId :=
          if t = .GRATITUDE then
            if truthyStr body.gratitudePromptId then
              idValue body.gratitudePromptId
            else none
          else none
        let creativePromptId :=
          if t = .CREATIVE then
            if truthyStr body.creativePromptId then
              idValue body.creativePromptId
            else none
          else none
        let entry : JournalEntry :=
          ⟨newId, uid, t, title, bodyMarkdown, angerReason,
            gratitudePromptId, creativePromptId, now⟩
        ⟨201, none, some entry, counters', db ++ [entry]⟩

/-- Descending-recency order on journal entries (`orderBy createdAt desc`). -/
def entryDescLE (a b : JournalEntry) : Prop := b.createdAt ≤ a.createdAt

instance : DecidableRel entryDescLE := fun a b => Nat.decLe b.createdAt a.createdAt

instance : IsTotal JournalEntry entryDescLE :=
  ⟨fun a b => Nat.le_total b.createdAt a.createdAt⟩

instance : IsTrans JournalEntry entryDescLE :=
  ⟨fun _ _ _ h1 h2 => Nat.le_trans h2 h1⟩

/-- The store's `findMany({orderBy: {createdAt: "desc"}})` result ordering. -/
def sortByCreatedAtDesc (l : List JournalEntry) : List JournalEntry :=
  List.insertionSort entryDescLE l

/-- `PAGE_SIZE_DEFAULT` and `PAGE_SIZE_MAX` from `app/api/entries/route.ts`. -/
def PAGE_SIZE_DEFAULT : Int := 10

def PAGE_SIZE_MAX : Int := 50

/-- A JavaScript number as produced by `Number.parseInt`: an integer or
NaN. -/
inductive JsNum
  | int (v : Int)
  | nan
deriving DecidableEq, Repr

/-- JavaScript `Number.parseInt(s, 10)`: skip leading whitespace, read an
optional sign and then the maximal leading run of decimal digits; NaN when
that run is empty (so for the empty string and for non-numeric input). -/
def jsParseInt (s : String) : JsNum :=
  let l := s.data.dropWhile Char.isWhitespace
  let signed : Bool × List Char :=
    match l with
    | '-' :: rest => (true, rest)
    | '+' :: rest => (false, rest)
    | _ => (false, l)
  let ds := signed.2.takeWhile Char.isDigit
  if ds.isEmpty then .nan
  else
    let n : Nat := ds.foldl (fun a c => a * 10 + (c.toNat - 48)) 0
    .int (if signed.1 then -(n : Int) else (n : Int))

/-- JavaScript `Math.max(1, x)`: NaN when the argument is NaN. -/
def jsMaxOne : JsNum → JsNum
  | .nan => .nan
  | .int v => .int (max 1 v)

/-- `normalizePageSize` from `app/api/entries/route.ts`.  The argument is the
`Number.parseInt` result of the query parameter.  `!value` is true for both
NaN and 0, so both fall back to the default. -/
def normalizePageSize : JsNum → Int
  | .nan => PAGE_SIZE_DEFAULT
  | .int v =>
    if v = 0 then PAGE_SIZE_DEFAULT else min (max v 1) PAGE_SIZE_MAX

/-- The pagination metadata in the `GET /api/entries` response. -/
structure PageMeta where
  page : Int
  pageSize : Int
  total : Nat
deriving DecidableEq, Repr

/-- Observable outcome of `GET /api/entries`. -/
structure EntriesGetResult where
  status : Nat
  error : Option String
  entries : List JournalEntry
  meta : Option PageMeta
deriving DecidableEq, Repr

/-- `GET /api/entries` from `app/api/entries/route.ts`: authenticate (401),
compute `page = Math.max(1, parseInt(get("page") ?? "1"))` and
`pageSize = normalizePageSize(parseInt(get("pageSize") ?? ""))`, then page
through the caller's own entries ordered by creation time descending,
together with the caller's total entry count.  The query parameters are the
raw strings (`none` = absent).  A present non-numeric page parses to NaN;
`Math.max(1, NaN)` is NaN, so `skip = (page-1)*pageSize` is NaN and the
store rejects the `findMany` arguments — the rejection is unhandled in the
route, so the framework answers with its generic 500 error response instead
of an entry list.  Only the page can be NaN at that point, since
`normalizePageSize` never returns NaN. -/
def entriesGET (userId : Option String)
    (pageParam pageSizeParam : Option String)
    (db : List JournalEntry) : EntriesGetResult :=
  match userId with
  | none => ⟨401, some "Unauthorized", [], none⟩
  | some uid =>
    let pageSize := normalizePageSize (jsParseInt (pageSizeParam.getD ""))
    match jsMaxOne (jsParseInt (pageParam.getD "1")) with
    | .nan => ⟨500, some "Internal Server Error", [], none⟩
    | .int page =>
      let skip := (page - 1) * pageSize
      let owned := db.filter (fun e => e.userId == uid)
      let entries :=
        ((sortByCreatedAtDesc owned).drop skip.toNat).take pageSize.toNat
      ⟨200, none, entries, some ⟨page, pageSize, owned.length⟩⟩

/-- Observable outcome of `GET /api/entries/[id]`. -/
structure EntryByIdResult where
  status : Nat
  error : Option String
  entry : Option JournalEntry
deriving DecidableEq, Repr

/-- `GET /api/entries/[id]` from `app/api/entries/[id]/route.ts`:
authenticate (401), look the id up, and report "Entry not found." (404)
both when no row has the id and when the row belongs to another user. -/
def entryByIdGET (userId : Option String) (id : String)
    (db : List JournalEntry) : EntryByIdResult :=
  match userId with
  | none => ⟨401, some "Unauthorized", none⟩
  | some uid =>
    match db.find? (fun e => e.id == id) with
    | none => ⟨404, some "Entry not found.", none⟩
    | some e =>
      if e.userId = uid then ⟨200, none, some e⟩
      else ⟨404, some "Entry not found.", none⟩

/-! ### Prompt catalog (`/api/prompts/gratitude/random`) -/

/-- A `GratitudePrompt` row (the reflective prompt catalog). -/
structure GratitudePrompt where
  id : String
  promptText : String
  isActive : Bool
  createdAt : Nat
deriving DecidableEq, Repr

/-- Ascending creation order on gratitude prompts (`orderBy createdAt asc`). -/
def gratitudeAscLE (a b : GratitudePrompt) : Prop := a.createdAt ≤ b.createdAt

instance : DecidableRel gratitudeAscLE := fun a b => Nat.decLe a.createdAt b.createdAt

/-- Observable outcome of `GET /api/prompts/gratitude/random`; the prompt is
exposed as its (id, text) pair only. -/
structure GratitudeRandomResult where
  status : Nat
  error : Option String
  prompt : Option (String × String)
deriving DecidableEq, Repr

/-- `GET /api/prompts/gratitude/random` from
`app/api/prompts/gratitude/random/route.ts`: authenticate (401), count the
active prompts, fail 404 when none are active, otherwise skip a uniformly
drawn offset into the active prompts ordered by creation time ascending.
`skip` models `Math.floor(Math.random() * activeCount)`, which lies in
`[0, activeCount)`. -/
def gratitudeRandomGET (userId : Option String) (db : List GratitudePrompt)
    (skip : Nat) : GratitudeRandomResult :=
  match userId with
  | none => ⟨401, some "Unauthorized", none⟩
  | some _ =>
    let active := db.filter (fun p => p.isActive)
    if active.length = 0 then
      ⟨404, some "No gratitude prompts available.", none⟩
    else
      match ((List.insertionSort gratitudeAscLE active).drop skip).head? with
      | none => ⟨500, some "Failed to pick a gratitude prompt.", none⟩
      | some p => ⟨200, none, some (p.id, p.promptText)⟩

/-- C6: for every create call with a valid category, the stored entry's
auxiliary fields are normalized server-side: the anger reason is retained
(trimmed) only for the reactive (ANGER) category, the reflective-prompt
reference only for GRATITUDE, the creative-prompt reference only for
CREATIVE, and every other combination is stored as null regardless of what
the caller supplied. -/
theorem create_normalizes_aux (uid : String) (body : CreateEntryPayload)
    (counters : CounterState) (db : List JournalEntry) (newId : String)
    (now : Nat) (t : EntryType)
    (ht : (body.entryType.map jsToLower).bind ENTRY_SLUG_TO_ENUM = some t) :
    ∃ e, (entriesPOST (some uid) body counters db newId now).entry = some e ∧
      (t ≠ .ANGER → e.angerReason = none) ∧
      (t ≠ .GRATITUDE → e.gratitudePromptId = none) ∧
      (t ≠ .CREATIVE → e.creativePromptId = none) ∧
      (t = .ANGER → e.angerReason = body.angerReason.asMaybeStr.map jsTrim) ∧
      (t = .GRATITUDE → e.gratitudePromptId =
        (if truthyStr body.gratitudePromptId then
          idValue body.gratitudePromptId else none)) ∧
      (t = .CREATIVE → e.creativePromptId =
        (if truthyStr body.creativePromptId then
          idValue body.creativePromptId else none)) := by
  unfold entriesPOST
  rw [ht]
  refine ⟨_, rfl, ?_, ?_, ?_, ?_, ?_, ?_⟩ <;> intro h <;> simp [h]

theorem create_normalizes_aux_witness :
    ∃ e, (entriesPOST (some "u")
        ⟨some "GRATITUDE", .str "b", .str " why ", some (some "g1"),
          some (some "c1")⟩
        (fun _ => none) [] "e1" 5).entry = some e ∧
      (EntryType.GRATITUDE ≠ .ANGER → e.angerReason = none) ∧
      (EntryType.GRATITUDE ≠ .GRATITUDE → e.gratitudePromptId = none) ∧
      (EntryType.GRATITUDE ≠ .CREATIVE → e.creativePromptId = none) ∧
      (EntryType.GRATITUDE = .ANGER → e.angerReason =
        (JsonField.str " why ").asMaybeStr.map jsTrim) ∧
      (EntryType.GRATITUDE = .GRATITUDE → e.gratitudePromptId =
        (if truthyStr (some (some "g1")) then
          idValue (some (some "g1")) else none)) ∧
      (EntryType.GRATITUDE = .CREATIVE → e.creativePromptId =
        (if truthyStr (some (some "c1")) then
          idValue (some (some "c1")) else none)) :=
  create_normalizes_aux "u"
    ⟨some "GRATITUDE", .str "b", .str " why ", some (some "g1"),
      some (some "c1")⟩
    (fun _ => none) [] "e1" 5 .GRATITUDE (by decide)

/-- C10: for every successful create call the stored body is a string, never
null: a string-valued bodyMarkdown is stored unchanged (not trimmed), and an
omitted, null, or non-string bodyMarkdown is stored as the empty string. -/
theorem create_body_is_string (uid : String) (body : CreateEntryPayload)
    (counters : CounterState) (db : List JournalEntry) (newId : String)
    (now : Nat) (t : EntryType)
    (ht : (body.entryType.map jsToLower).bind ENTRY_SLUG_TO_ENUM = some t) :
    ∃ e, (entriesPOST (some uid) body counters db newId now).entry = some e ∧
      (∀ s, body.bodyMarkdown = .str s → e.bodyMarkdown = s) ∧
      (body.bodyMarkdown.asMaybeStr = none → e.bodyMarkdown = "") := by
  unfold entriesPOST
  rw [ht]
  refine ⟨_, rfl, ?_, ?_⟩
  · intro s hs
    simp [hs, JsonField.asMaybeStr]
  · intro hs
    simp [hs]

theorem create_body_is_string_witness :
    ∃ e, (entriesPOST (some "u")
        ⟨some "anger", .str "  keep  me  ", .nullv, none, none⟩
        (fun _ => none) [] "e1" 5).entry = some e ∧
      (∀ s, (JsonField.str "  keep  me  ") = .str s → e.bodyMarkdown = s) ∧
      ((JsonField.str "  keep  me  ").asMaybeStr = none →
        e.bodyMarkdown = "") :=
  create_body_is_string "u"
    ⟨some "anger", .str "  keep  me  ", .nullv, none, none⟩
    (fun _ => none) [] "e1" 5 .ANGER (by decide)

/-- C7 counterexample: two inputs refute the claim.  pageSize=0 is not
clamped to the range [1,50] — the route's `!value` test treats 0 like an
absent value and falls back to the default 10, whereas clamping 0 to [1,50]
would give 1.  And a present non-numeric page ("abc") parses to NaN, which
`Math.max(1, NaN)` does not floor to 1; the NaN skip makes the store reject
the query, so even an owner with zero entries receives an error response,
not an empty list. -/
theorem list_pagination_counterexample :
    (entriesGET (some "u") none (some "0") []).meta =
      some ⟨1, 10, 0⟩ ∧
    min (max (0 : Int) 1) PAGE_SIZE_MAX = 1 ∧ (10 : Int) ≠ 1 ∧
    (entriesGET (some "u") (some "abc") none []).status = 500 ∧
    (entriesGET (some "u") (some "abc") none []).error ≠ none ∧
    (500 : Nat) ≠ 200 := by
  decide

/-- C7 (amended): for every authenticated list call whose page parameter is
absent or numeric, the page defaults to 1 and is floored at 1; the page
size defaults to 10 when its parameter is absent, non-numeric, or zero, and
nonzero numeric values are clamped to [1,50]; the returned entries belong
to the caller only and are ordered by creation time descending; the
metadata carries the caller's total entry count; and a caller with zero
entries receives an empty list with a 200 status.  A present non-numeric
page instead propagates NaN into the store's skip argument and the request
fails with the framework's error response, for every caller. -/
theorem list_pagination (uid : String)
    (pageParam pageSizeParam : Option String) (db : List JournalEntry) :
    (jsParseInt (pageParam.getD "1") = .nan →
      entriesGET (some uid) pageParam pageSizeParam db =
        ⟨500, some "Internal Server Error", [], none⟩) ∧
    (∀ pv : Int, jsParseInt (pageParam.getD "1") = .int pv →
      (entriesGET (some uid) pageParam pageSizeParam db).status = 200 ∧
      (∃ m, (entriesGET (some uid) pageParam pageSizeParam db).meta
          = some m ∧
        m.page = max 1 pv ∧
        (pageParam = none → m.page = 1) ∧
        1 ≤ m.page ∧
        (jsParseInt (pageSizeParam.getD "") = .nan → m.pageSize = 10) ∧
        (jsParseInt (pageSizeParam.getD "") = .int 0 → m.pageSize = 10) ∧
        (∀ v : Int, jsParseInt (pageSizeParam.getD "") = .int v → v ≠ 0 →
          m.pageSize = min (max v 1) 50) ∧
        m.total = (db.filter (fun e => e.userId == uid)).length) ∧
      (∀ e ∈ (entriesGET (some uid) pageParam pageSizeParam db).entries,
        e.userId = uid) ∧
      List.Pairwise entryDescLE
        (entriesGET (some uid) pageParam pageSizeParam db).entries ∧
      ((db.filter (fun e => e.userId == uid)).length = 0 →
        (entriesGET (some uid) pageParam pageSizeParam db).entries = [])) := by
  constructor
  · intro h
    unfold entriesGET
    rw [h]
    rfl
  · intro pv hpv
    have hred : entriesGET (some uid) pageParam pageSizeParam db =
        ⟨200, none,
          ((sortByCreatedAtDesc (db.filter (fun e => e.userId == uid))).drop
            ((max 1 pv - 1) * normalizePageSize
              (jsParseInt (pageSizeParam.getD ""))).toNat).take
            (normalizePageSize (jsParseInt (pageSizeParam.getD ""))).toNat,
          some ⟨max 1 pv,
            normalizePageSize (jsParseInt (pageSizeParam.getD "")),
            (db.filter (fun e => e.userId == uid)).length⟩⟩ := by
      unfold entriesGET
      rw [hpv]
      rfl
    simp only [hred]
    refine ⟨trivial, ⟨_, rfl, rfl, ?_, le_max_left 1 pv, ?_, ?_, ?_, rfl⟩,
      ?_, ?_, ?_⟩
    · intro h
      subst h
      have hc : jsParseInt ((none : Option String).getD "1") =
          .int 1 := by decide
      rw [hc] at hpv
      injection hpv with h2
      rw [← h2]
      simp
    · intro h
      rw [h]
      simp [normalizePageSize, PAGE_SIZE_DEFAULT]
    · intro h
      rw [h]
      simp [normalizePageSize, PAGE_SIZE_DEFAULT]
    · intro v hv hnz
      rw [hv]
      simp [normalizePageSize, hnz, PAGE_SIZE_DEFAULT, PAGE_SIZE_MAX]
    · intro e he
      have h1 : e ∈ sortByCreatedAtDesc
          (db.filter (fun x => x.userId == uid)) := by
        exact List.Sublist.mem he
          ((List.take_sublist _ _).trans (List.drop_sublist _ _))
      have h2 : e ∈ db.filter (fun x => x.userId == uid) := by
        simpa [sortByCreatedAtDesc] using h1
      have := List.of_mem_filter h2
      exact eq_of_beq this
    · have hs : List.Pairwise entryDescLE
          (sortByCreatedAtDesc (db.filter (fun x => x.userId == uid))) :=
        List.sorted_insertionSort entryDescLE _
      exact ((hs.sublist (List.drop_sublist _ _)).sublist
        (List.take_sublist _ _))
    · intro h
      have hnil : db.filter (fun e => e.userId == uid) = [] :=
        List.length_eq_zero.mp h
      simp [hnil, sortByCreatedAtDesc]

/-- C8: `pickRandomActiveReflectivePrompt` with exactly one active prompt
always returns that prompt; with zero active prompts it always fails with a
NotFoundError (404) and returns no prompt. -/
theorem pickRandom_single_and_none (u : String) (db : List GratitudePrompt)
    (skip : Nat) :
    ((db.filter (fun p => p.isActive)).length = 0 →
      gratitudeRandomGET (some u) db skip =
        ⟨404, some "No gratitude prompts available.", none⟩) ∧
    (∀ p, db.filter (fun q => q.isActive) = [p] → skip < 1 →
      gratitudeRandomGET (some u) db skip =
        ⟨200, none, some (p.id, p.promptText)⟩) := by
  constructor
  · intro h
    simp [gratitudeRandomGET, h]
  · intro p hp hskip
    have hz : skip = 0 := Nat.lt_one_iff.mp hskip
    subst hz
    simp [gratitudeRandomGET, hp]

/-- C9: an authenticated getById for an entry that exists but belongs to a
different owner yields the same 404 "Entry not found." response as an id
that does not exist at all, and never a 403. -/
theorem getById_other_owner (uid id : String) (db : List JournalEntry)
    (e : JournalEntry)
    (hfind : db.find? (fun x => x.id == id) = some e)
    (hown : e.userId ≠ uid) :
    entryByIdGET (some uid) id db =
      ⟨404, some "Entry not found.", none⟩ ∧
    entryByIdGET (some uid) id db = entryByIdGET (some uid) id [] ∧
    (entryByIdGET (some uid) id db).status ≠ 403 := by
  unfold entryByIdGET
  rw [hfind]
  simp [hown, List.find?]

theorem getById_other_owner_witness :
    entryByIdGET (some "owner-1") "e1"
      [⟨"e1", "owner-2", .ANGER, "t", "", none, none, none, 0⟩] =
      ⟨404, some "Entry not found.", none⟩ ∧
    entryByIdGET (some "owner-1") "e1"
      [⟨"e1", "owner-2", .ANGER, "t", "", none, none, none, 0⟩] =
      entryByIdGET (some "owner-1") "e1" [] ∧
    (entryByIdGET (some "owner-1") "e1"
      [⟨"e1", "owner-2", .ANGER, "t", "", none, none, none, 0⟩]).status
        ≠ 403 :=
  getById_other_owner "owner-1" "e1"
    [⟨"e1", "owner-2", .ANGER, "t", "", none, none, none, 0⟩]
    ⟨"e1", "owner-2", .ANGER, "t", "", none, none, none, 0⟩
    (by decide) (by decide)

/-! ### Prompt generator (`/api/prompts/creative`) -/

/-- A `CreativePersona` row. -/
structure CreativePersona where
  id : String
  name : String
  description : String
  isActive : Bool
  order : Int
  createdAt : Nat
deriving DecidableEq, Repr

/-- The persona query's ordering: `orderBy: [{order: "asc"}, {createdAt:
"asc"}]`. -/
def personaLE (a b : CreativePersona) : Prop :=
  a.order < b.order ∨ (a.order = b.order ∧ a.createdAt ≤ b.createdAt)

instance : DecidableRel personaLE := fun a b => by
  unfold personaLE
  exact inferInstance

/-- JavaScript `Array.prototype.join(sep)`. -/
def joinSep (sep : String) : List String → String
  | [] => ""
  | [a] => a
  | a :: b :: rest => a ++ sep ++ joinSep sep (b :: rest)

/-- The request body of `POST /api/prompts/creative`
(`CreativePromptPayload`); `personaIds` is `none` when the field is not an
array, and its elements keep their raw JSON shape. -/
structure CreativePromptPayload where
  personaIds : Option (List JsonField)
  seedText : JsonField
deriving DecidableEq, Repr

/-- The route's sanitization of `payload.personaIds`: keep only string
elements whose trimmed value is non-empty; a non-array field yields `[]`. -/
def filterPersonaIds : Option (List JsonField) → List String
  | none => []
  | some l =>
    l.filterMap fun v =>
      match v with
      | .str s => if jsTrim s ≠ "" then some s else none
      | _ => none

/-- The persona query in `POST /api/prompts/creative`: active personas,
restricted to the supplied ids when any were supplied, ordered by (order
asc, createdAt asc). -/
def selectedPersonas (payload : CreativePromptPayload)
    (db : List CreativePersona) : List CreativePersona :=
  let ids := filterPersonaIds payload.personaIds
  List.insertionSort personaLE
    (db.filter fun p => p.isActive && (ids.isEmpty || ids.contains p.id))

/-- The parsed JSON body of the outbound Ollama response. -/
structure OllamaData where
  error : Option String
  response : Option String
deriving DecidableEq, Repr

/-- Outcome of the outbound `fetch` to the generation endpoint: either the
network call threw, or it produced a reply with an ok/not-ok status and an
optional parsed JSON body. -/
inductive FetchOutcome
  | netError (msg : String)
  | reply (ok : Bool) (status : Nat) (data : Option OllamaData)
deriving DecidableEq, Repr

/-- `OllamaResult` from `app/api/prompts/creative/route.ts` (`raw` models the
serialized raw payload / error detail). -/
structure OllamaResult where
  ok : Bool
  text : String
  raw : String
  reason : String
deriving DecidableEq, Repr

/-- `generateViaOllama`: a missing base URL, a thrown fetch, a non-ok HTTP
status, and a missing or blank generated text all classify as failures
(`ok := false`); only a reachable endpoint with an ok status and non-blank
text classifies as success carrying that text. -/
def generateViaOllama (urlConfigured : Bool) (f : FetchOutcome) :
    OllamaResult :=
  if !urlConfigured then
    ⟨false, "", "OLLAMA_URL is not configured.", "missing_url"⟩
  else
    match f with
    | .netError msg => ⟨false, "", msg, "network_error"⟩
    | .reply ok status data =>
      if !ok then
        let reason :=
          match data with
          | some d =>
            match d.error with
            | some e => if e ≠ "" then e
                else "Ollama responded with " ++ Nat.repr status
            | none => "Ollama responded with " ++ Nat.repr status
          | none => "Ollama responded with " ++ Nat.repr status
        ⟨false, "", reason, reason⟩
      else
        let text :=
          match data with
          | some d => d.response.getD ""
          | none => ""
        if jsTrim text = "" then
          ⟨false, "", "Empty response from Ollama.", "empty_response"⟩
        else ⟨true, text, text, ""⟩

/-- `buildGeneratorPrompt`, built from the persona summary lines rather than
by re-splitting the joined summary (identical when descriptions contain no
newline, which the claims do not depend on). -/
def buildGeneratorPrompt (personaLines : List String) (seedText : String) :
    String :=
  let base :=
    "You are an internal creative writing prompt generator. " ++
    "Blend the following personas into one cohesive narrative voice:\n"
  let personaBlock := joinSep "\n" (personaLines.map (fun l => "- " ++ l))
  let seed :=
    if seedText ≠ "" then
      "Incorporate this seed idea or tone: \x22" ++ seedText ++ "\x22."
    else
      "Invent a scenario rooted in ordinary life that can bend toward wonder."
  let instructions :=
    "Return exactly one prompt. Do not label sections. " ++
    "Keep it under 120 words, use second person, and emphasize sensory detail."
  base ++ personaBlock ++ "\n\n" ++ seed ++ "\n" ++ instructions ++
    "\nReturn plain text without Markdown bullets or titles."

/-- `buildFallbackPrompt`: the deterministic degraded-mode prompt built from
the comma-joined persona names and the optional seed text. -/
def buildFallbackPrompt (personas : List (String × String))
    (seedText : String) : String :=
  let personaNames := joinSep ", " (personas.map Prod.fst)
  let seed :=
    if seedText.length > 0 then
      " weaving in the seed “" ++ seedText ++ "”."
    else " discovering surprise in an otherwise ordinary day."
  "Write a " ++ personaNames ++ " inspired vignette" ++ seed ++
    " Focus on texture, scent, and tiny gestures so the writer can expand it later."

/-- `text.replace(/\r\n/g, "\n")` on the character list. -/
def replaceCRLF : List Char → List Char
  | [] => []
  | '\r' :: '\n' :: rest => '\n' :: replaceCRLF rest
  | c :: rest => c :: replaceCRLF rest

/-- `sanitizePromptText`: normalize CRLF to LF, then trim. -/
def sanitizePromptText (text : String) : String :=
  jsTrim (String.mk (replaceCRLF text.data))

/-- The denormalized persona snapshot stored on a generated prompt. -/
structure PersonaSnapshot where
  id : String
  name : String
  description : String
deriving DecidableEq, Repr

/-- The `aiRaw` metadata persisted with a generated prompt. -/
structure AiRaw where
  seedText : String
  prompt : String
  modelName : String
  responseRaw : String
  usedFallback : Bool
deriving DecidableEq, Repr

/-- A `CreativePrompt` row (`GeneratedCreativePrompt`). -/
structure CreativePromptRecord where
  id : String
  personasUsed : List PersonaSnapshot
  promptText : String
  aiRaw : AiRaw
deriving DecidableEq, Repr

/-- Observable outcome of `POST /api/prompts/creative`. -/
structure CreativePostResult where
  status : Nat
  error : Option String
  promptId : Option String
  promptText : Option String
  personas : List PersonaSnapshot
  fromOllama : Option Bool
deriving DecidableEq, Repr

/-- `POST /api/prompts/creative`: authenticate (401), sanitize the payload,
resolve active personas (zero resolved personas 400), call the generation
endpoint, take its text when it succeeded non-blank and the deterministic
fallback otherwise, persist the `CreativePrompt` row unconditionally, and
answer 201 for service text or 202 for fallback text. -/
def creativePOST (userId : Option String) (payload : CreativePromptPayload)
    (db : List CreativePersona) (prompts : List CreativePromptRecord)
    (urlConfigured : Bool) (f : FetchOutcome) (newId modelName : String) :
    CreativePostResult × List CreativePromptRecord :=
  match userId with
  | none => (⟨401, some "Unauthorized", none, none, [], none⟩, prompts)
  | some _ =>
    let seedText := (payload.seedText.asMaybeStr.map jsTrim).getD ""
    let personas := selectedPersonas payload db
    if personas.isEmpty then
      (⟨400, some "Select at least one persona before generating a prompt.",
        none, none, [], none⟩, prompts)
    else
      let personaLines := personas.map fun p => p.name ++ ": " ++ p.description
      let generatorPrompt := buildGeneratorPrompt personaLines seedText
      let ollamaResult := generateViaOllama urlConfigured f
      let finalText :=
        if ollamaResult.ok ∧ jsTrim ollamaResult.text ≠ "" then
          sanitizePromptText ollamaResult.text
        else
          buildFallbackPrompt
            (personas.map fun p => (p.name, p.description)) seedText
      let personasUsed :=
        personas.map fun p => PersonaSnapshot.mk p.id p.name p.description
      let newRecord : CreativePromptRecord :=
        ⟨newId, personasUsed, finalText,
          ⟨seedText, generatorPrompt, modelName, ollamaResult.raw,
            !ollamaResult.ok⟩⟩
      (⟨if ollamaResult.ok then 201 else 202, none, some newId,
          some finalText, personasUsed, some ollamaResult.ok⟩,
        prompts ++ [newRecord])

/-- `needle` occurs as a contiguous substring of `hay`. -/
def occursIn (needle hay : String) : Prop :=
  ∃ l r, hay = l ++ needle ++ r

theorem occursIn_joinSep (sep n : String) (l : List String) (hn : n ∈ l) :
    occursIn n (joinSep sep l) := by
  induction l with
  | nil => cases hn
  | cons a rest ih =>
    cases rest with
    | nil =>
      rcases List.mem_singleton.mp hn with rfl
      exact ⟨"", "", by simp [joinSep]⟩
    | cons b rest' =>
      rcases List.mem_cons.mp hn with rfl | hmem
      · exact ⟨"", sep ++ joinSep sep (b :: rest'),
          by simp [joinSep, String.append_assoc]⟩
      · obtain ⟨l0, r0, he⟩ := ih hmem
        exact ⟨a ++ sep ++ l0, r0,
          by simp [joinSep, he, String.append_assoc]⟩

theorem occursIn_five (a c d e n m : String) (h : occursIn n m) :
    occursIn n (a ++ m ++ c ++ d ++ e) := by
  obtain ⟨l0, r0, rfl⟩ := h
  exact ⟨a ++ l0, r0 ++ c ++ d ++ e, by simp [String.append_assoc]⟩

theorem occursIn_buildFallback (personas : List (String × String))
    (seed n : String) (hn : n ∈ personas.map Prod.fst) :
    occursIn n (buildFallbackPrompt personas seed) := by
  unfold buildFallbackPrompt
  exact occursIn_five _ _ _ _ _ _ (occursIn_joinSep ", " n _ hn)

theorem buildFallbackPrompt_ne_empty (personas : List (String × String))
    (seed : String) : buildFallbackPrompt personas seed ≠ "" := by
  unfold buildFallbackPrompt
  intro h
  have hlen := congrArg String.length h
  simp only [String.length_append] at hlen
  have h8 : ("Write a " : String).length = 8 := rfl
  rw [h8] at hlen
  simp at hlen

/-- C2: a generate call whose persona precondition holds, with a network
error injected into the external call, still answers with the
alternate-success status 202 and a non-empty prompt text that contains
every selected persona's name, and a `CreativePrompt` row is persisted
afterward carrying that text with its fallback flag set. -/
theorem generate_fallback_on_network_error (u msg newId modelName : String)
    (payload : CreativePromptPayload) (db : List CreativePersona)
    (prompts : List CreativePromptRecord)
    (hne : selectedPersonas payload db ≠ []) :
    (creativePOST (some u) payload db prompts true (.netError msg) newId
      modelName).1.status = 202 ∧
    ∃ ft,
      (creativePOST (some u) payload db prompts true (.netError msg) newId
        modelName).1.promptText = some ft ∧
      ft ≠ "" ∧
      (∀ p ∈ selectedPersonas payload db, occursIn p.name ft) ∧
      ∃ rcd,
        (creativePOST (some u) payload db prompts true (.netError msg) newId
          modelName).2 = prompts ++ [rcd] ∧
        rcd.promptText = ft ∧
        rcd.aiRaw.usedFallback = true := by
  have hb : (selectedPersonas payload db).isEmpty = false := by
    cases hsel : selectedPersonas payload db with
    | nil => exact absurd hsel hne
    | cons a l => rfl
  have hgen : generateViaOllama true (.netError msg) =
      ⟨false, "", msg, "network_error"⟩ := rfl
  unfold creativePOST
  simp only [hb, hgen, Bool.false_eq_true, if_false, false_and, ite_false,
    Bool.not_false]
  refine ⟨trivial, _, rfl, buildFallbackPrompt_ne_empty _ _, ?_, _, rfl, rfl,
    rfl⟩
  intro p hp
  apply occursIn_buildFallback
  simp only [List.map_map]
  exact List.mem_map_of_mem _ hp

theorem generate_fallback_on_network_error_witness :
    (creativePOST (some "u")
      ⟨none, .nullv⟩ [⟨"p1", "Stargazer", "watches skies", true, 0, 0⟩]
      [] true (.netError "boom") "cp1" "mistral:latest").1.status = 202 ∧
    ∃ ft,
      (creativePOST (some "u")
        ⟨none, .nullv⟩ [⟨"p1", "Stargazer", "watches skies", true, 0, 0⟩]
        [] true (.netError "boom") "cp1" "mistral:latest").1.promptText
        = some ft ∧
      ft ≠ "" ∧
      (∀ p ∈ selectedPersonas ⟨none, .nullv⟩
          [⟨"p1", "Stargazer", "watches skies", true, 0, 0⟩],
        occursIn p.name ft) ∧
      ∃ rcd,
        (creativePOST (some "u")
          ⟨none, .nullv⟩ [⟨"p1", "Stargazer", "watches skies", true, 0, 0⟩]
          [] true (.netError "boom") "cp1" "mistral:latest").2 = [] ++ [rcd] ∧
        rcd.promptText = ft ∧
        rcd.aiRaw.usedFallback = true :=
  generate_fallback_on_network_error "u" "boom" "cp1" "mistral:latest"
    ⟨none, .nullv⟩ [⟨"p1", "Stargazer", "watches skies", true, 0, 0⟩] []
    (by decide)

/-- C3: for every authenticated generate call, zero resolved personas is the
only hard failure (400); otherwise the call always answers 201 or 202 with
no error payload and a persisted row whose fallback flag mirrors the
external outcome — 201 exactly when the external call succeeded; and
network errors, non-2xx replies, and missing or blank generated text all
classify as external failure (the fallback path), so none of them surface
as an error status. -/
theorem generate_failure_semantics (u newId modelName : String)
    (payload : CreativePromptPayload) (db : List CreativePersona)
    (prompts : List CreativePromptRecord) (urlConfigured : Bool)
    (f : FetchOutcome) :
    (selectedPersonas payload db = [] →
      (creativePOST (some u) payload db prompts urlConfigured f newId
        modelName).1.status = 400) ∧
    (selectedPersonas payload db ≠ [] →
      ((creativePOST (some u) payload db prompts urlConfigured f newId
          modelName).1.status = 201 ∨
        (creativePOST (some u) payload db prompts urlConfigured f newId
          modelName).1.status = 202) ∧
      ((creativePOST (some u) payload db prompts urlConfigured f newId
          modelName).1.status = 201 ↔
        (generateViaOllama urlConfigured f).ok = true) ∧
      (creativePOST (some u) payload db prompts urlConfigured f newId
        modelName).1.error = none ∧
      ∃ rcd,
        (creativePOST (some u) payload db prompts urlConfigured f newId
          modelName).2 = prompts ++ [rcd] ∧
        rcd.aiRaw.usedFallback = !(generateViaOllama urlConfigured f).ok) ∧
    (∀ msg, (generateViaOllama urlConfigured (.netError msg)).ok = false) ∧
    (∀ st d, (generateViaOllama urlConfigured (.reply false st d)).ok
      = false) ∧
    (∀ st d, jsTrim (d.response.getD "") = "" →
      (generateViaOllama urlConfigured (.reply true st (some d))).ok
        = false) ∧
    (∀ st, (generateViaOllama urlConfigured (.reply true st none)).ok
      = false) := by
  refine ⟨?_, ?_, ?_, ?_, ?_, ?_⟩
  · intro h
    have hb : (selectedPersonas payload db).isEmpty = true := by
      simp [h]
    unfold creativePOST
    simp only [hb, if_true]
  · intro hne
    have hb : (selectedPersonas payload db).isEmpty = false := by
      cases hsel : selectedPersonas payload db with
      | nil => exact absurd hsel hne
      | cons a l => rfl
    unfold creativePOST
    simp only [hb, Bool.false_eq_true, if_false]
    cases hok : (generateViaOllama urlConfigured f).ok with
    | false => simp [hok]
    | true => simp [hok]
  · intro msg
    cases urlConfigured <;> rfl
  · intro st d
    cases urlConfigured <;> rfl
  · intro st d h
    cases urlConfigured with
    | false => rfl
    | true => simp [generateViaOllama, h]
  · intro st
    cases urlConfigured <;> rfl
